import Mathlib

/-!
Verification development for `server.py` of the stress-backend repository:
a Flask service that ingests telemetry snapshots, stores the latest snapshot
per device in `latest.json`, keeps per-device contact email lists in
`contacts.json`, and fires an asynchronous email notification when the
heart-rate threshold is met.

The embedding models JSON values (`JVal`), the two persisted documents
(`Storage`), Python `float(...)` coercion (`pyFloat` / `parsePyFloat`), and
each HTTP handler of the source as a pure function from storage and a decoded
request payload to new storage, a response, and the dispatch effect (the
arguments of any `send_email_async` call made on the way).
-/

set_option autoImplicit false

namespace StressBackend

/-- JSON values as decoded by Flask's `request.get_json()`.  Numbers are
modelled as exact rationals. -/
inductive JVal where
  | null
  | bool (b : Bool)
  | num (q : ℚ)
  | str (s : String)
  | arr (l : List JVal)
  | obj (l : List (String × JVal))

/-- `v is None` in Python. -/
def JVal.isNull : JVal → Bool
  | .null => true
  | _ => false

/-- `isinstance(v, str)` in Python. -/
def JVal.isStr : JVal → Bool
  | .str _ => true
  | _ => false

/-- `isinstance(v, list)` in Python. -/
def JVal.isArr : JVal → Bool
  | .arr _ => true
  | _ => false

/-- Python truthiness of a decoded JSON value: `None`, `False`, `0`, `""`,
`[]` and `{}` are falsy, everything else is truthy. -/
def truthy : JVal → Bool
  | .null => false
  | .bool b => b
  | .num q => q != 0
  | .str s => s != ""
  | .arr l => !l.isEmpty
  | .obj l => !l.isEmpty

/-- Python `str(...)` on a decoded JSON value.  Faithful for the scalar
values the handlers actually receive as `device_id`; the rendering of
compound values (which no route depends on) is schematic. -/
def pyStr : JVal → String
  | .str s => s
  | .null => "None"
  | .bool true => "True"
  | .bool false => "False"
  | .num q => toString q
  | .arr _ => "<list>"
  | .obj _ => "<dict>"

/-- A decoded JSON object (a Python dict): association list keyed by string,
first binding wins, as produced by `json.load` / `request.get_json()`. -/
abbrev JObj := List (String × JVal)

/-- A request body after `request.get_json() or {}`. -/
abbrev Payload := JObj

/-- First value bound to `k`, if any. -/
def lookup? : JObj → String → Option JVal
  | [], _ => none
  | (k, v) :: rest, key => if k = key then some v else lookup? rest key

/-- Python `d.get(k)`: `None` when the key is absent. -/
def pget (p : JObj) (k : String) : JVal :=
  (lookup? p k).getD JVal.null

/-- Python `d.get(k, default)`. -/
def pgetD (p : JObj) (k : String) (d : JVal) : JVal :=
  (lookup? p k).getD d

/-- Python `d[k] = v`: replace the binding in place, or append a fresh one. -/
def setKey : JObj → String → JVal → JObj
  | [], k, v => [(k, v)]
  | (k1, v1) :: rest, k, v =>
    if k1 = k then (k, v) :: rest else (k1, v1) :: setKey rest k v

/-- What a persisted JSON file may hold: missing, undecodable, or a decoded
document (the server only ever writes objects). -/
inductive FileContent where
  | absent
  | corrupt
  | valid (doc : JObj)

/-- `load_json(path, default)`: returns the decoded document, or the default
when the file is missing (`FileNotFoundError`) or undecodable
(`json.JSONDecodeError`) — both exceptions are swallowed. -/
def load_json : FileContent → JObj → JObj
  | .absent, d => d
  | .corrupt, d => d
  | .valid doc, _ => doc

/-- The backing persistence state: the two JSON files, plus the failure
model of `save_json`.  `save_json` opens its target with mode `"w"`, which
truncates the existing file before `json.dump` writes the new content, so
when a write fails (storage unavailable, disk full mid-dump) the file is
left in an unspecified state — truncated empty, partially written, or (if
the failure hit before the open) still the old content.  `writeFails` says
whether the next write raises, and `writeResidue` is whatever that failed
write leaves in the targeted file. -/
structure Storage where
  contactsFile : FileContent
  latestFile : FileContent
  writeFails : Bool
  writeResidue : FileContent

/-- Exceptions the handlers can catch: `float()` failures and storage
write failures. -/
inductive PyError where
  | valueError
  | typeError
  | osError
deriving DecidableEq

/-- The value of a Python float, separating the IEEE specials that
`float(str)` can produce. -/
inductive PyFloat where
  | finite (q : ℚ)
  | inf
  | negInf
  | nan
deriving DecidableEq

/-- `f >= t` on a Python float against the integer threshold. -/
def pyGe : PyFloat → Int → Bool
  | .finite q, t => decide ((t : ℚ) ≤ q)
  | .inf, _ => true
  | .negInf, _ => false
  | .nan, _ => false

/-- Whitespace stripped by Python `float(str)`. -/
def isPyWs (c : Char) : Bool :=
  c = ' ' || c = '\t' || c = '\n' || c = '\r' || c = '\x0b' || c = '\x0c'

/-- Strip whitespace from both ends. -/
def stripWs (l : List Char) : List Char :=
  ((l.dropWhile isPyWs).reverse.dropWhile isPyWs).reverse

/-- Python numeric-literal underscore rule: every `_` must sit between two
digits.  `prev` is the character before the current position. -/
def usOk : Option Char → List Char → Bool
  | _, [] => true
  | prev, c :: rest =>
    if c = '_' then
      (match prev with
       | some p => p.isDigit
       | none => false)
      && (match rest with
          | d :: _ => d.isDigit
          | [] => false)
      && usOk (some c) rest
    else usOk (some c) rest

/-- Leading sign of a numeric literal: `(negative, rest)`. -/
def parseSign : List Char → Bool × List Char
  | '+' :: r => (false, r)
  | '-' :: r => (true, r)
  | l => (false, l)

/-- Decimal digit run to a natural number. -/
def digitsToNat (l : List Char) : Nat :=
  l.foldl (fun a c => a * 10 + (c.toNat - 48)) 0

def allDigits (l : List Char) : Bool :=
  l.all Char.isDigit

/-- Split at the first `e` (already lowercased) into mantissa and exponent. -/
def splitExp : List Char → List Char × Option (List Char)
  | [] => ([], none)
  | c :: rest =>
    if c = 'e' then ([], some rest)
    else
      let r := splitExp rest
      (c :: r.1, r.2)

/-- Split the mantissa at its decimal point; `none` when there are two. -/
def splitDot : List Char → Option (List Char × List Char)
  | [] => some ([], [])
  | c :: rest =>
    if c = '.' then
      if rest.contains '.' then none else some ([], rest)
    else
      match splitDot rest with
      | none => none
      | some (a, b) => some (c :: a, b)

/-- Value of `intPart.fracPart`. -/
def mantVal (ip fp : List Char) : ℚ :=
  (digitsToNat ip : ℚ) + (digitsToNat fp : ℚ) / (10 : ℚ) ^ fp.length

/-- Scale the mantissa by the (signed) decimal exponent. -/
def applyExp (m : ℚ) (eneg : Bool) (e : Nat) : ℚ :=
  if eneg then m / (10 : ℚ) ^ e else m * (10 : ℚ) ^ e

/-- The unsigned numeric body of a Python float literal (sign already
stripped, characters lowercased): digits with optional fraction and
optional exponent, underscores only between digits. -/
def parseNumeric (l : List Char) : Option ℚ :=
  if usOk none l then
    let l1 := l.filter (fun c => c != '_')
    let me := splitExp l1
    match splitDot me.1 with
    | none => none
    | some (ip, fp) =>
      if allDigits ip && allDigits fp && !(ip.isEmpty && fp.isEmpty) then
        let m := mantVal ip fp
        match me.2 with
        | none => some m
        | some ex =>
          let se := parseSign ex
          if !se.2.isEmpty && allDigits se.2 then
            some (applyExp m se.1 (digitsToNat se.2))
          else none
      else none
  else none

/-- Python `float(str)`: strip whitespace, take a sign, then either the
special words `inf` / `infinity` / `nan` (any case) or a decimal literal. -/
def parsePyFloat (s : String) : Option PyFloat :=
  let l := stripWs s.toList
  let sr := parseSign l
  let low := sr.2.map Char.toLower
  if low = ['i', 'n', 'f'] || low = "infinity".toList then
    some (if sr.1 then .negInf else .inf)
  else if low = ['n', 'a', 'n'] then
    some .nan
  else
    match parseNumeric low with
    | some q => some (.finite (if sr.1 then -q else q))
    | none => none

/-- Python `float(v)` on a decoded JSON value: numbers and booleans coerce,
strings go through the literal parser (`ValueError` on failure), and
`None` / lists / dicts raise `TypeError`. -/
def pyFloat : JVal → Except PyError PyFloat
  | .num q => .ok (.finite q)
  | .bool b => .ok (.finite (if b then 1 else 0))
  | .str s =>
    match parsePyFloat s with
    | some f => .ok f
    | none => .error .valueError
  | .null => .error .typeError
  | .arr _ => .error .typeError
  | .obj _ => .error .typeError

/-! ## Email dispatch (`send_email_async` and the spawned thread body) -/

/-- The SMTP environment configuration read at process start. -/
structure SmtpConfig where
  SMTP_USER : Option String
  SMTP_PASS : Option String
  SMTP_PORT : Int

/-- Truthiness of `SMTP_USER` / `SMTP_PASS`: unset env vars are `None`,
and the empty string is also falsy. -/
def envTruthy : Option String → Bool
  | none => false
  | some s => s != ""

/-- `SMTP_USER and SMTP_PASS` both truthy (the guard `if not SMTP_USER or
not SMTP_PASS` in the spawned `send()`). -/
def credsPresent (cfg : SmtpConfig) : Bool :=
  envTruthy cfg.SMTP_USER && envTruthy cfg.SMTP_PASS

/-- Terminal outcome of one background delivery attempt: absorbed locally,
never propagated to any request handler. -/
inductive DeliveryOutcome where
  | noCreds
  | delivered
  | deliveryFailed
  | unsupportedPort
deriving DecidableEq

/-- The body of the thread spawned by `send_email_async`: bail out with a
logged no-op when credentials are missing, otherwise attempt SSL (port 465)
or STARTTLS (port 587) delivery; `transportOk` abstracts whether the
connect/login/transmit chain succeeds. -/
def sendThreadBody (cfg : SmtpConfig) (transportOk : Bool) : DeliveryOutcome :=
  if !credsPresent cfg then .noCreds
  else if cfg.SMTP_PORT = 465 then
    if transportOk then .delivered else .deliveryFailed
  else if cfg.SMTP_PORT = 587 then
    if transportOk then .delivered else .deliveryFailed
  else .unsupportedPort

/-- What `send_email_async` gives back: its immediate return value and the
detached delivery computation it started. -/
structure DispatchResult where
  accepted : Bool
  delivery : Bool → DeliveryOutcome

/-- `send_email_async(to_emails, subject, body)`: start the daemon thread
and return `True` unconditionally — acceptance never reflects delivery. -/
def send_email_async (cfg : SmtpConfig) (to_emails subject body : JVal) :
    DispatchResult :=
  { accepted := true, delivery := sendThreadBody cfg }

/-! ## HTTP handlers -/

/-- Response of `POST /contacts/<device_id>`. -/
inductive ContactsResp where
  | ok (saved : JVal)
  | badRequest (error : String)
  | serverError (e : PyError)

/-- Result of `POST /contacts/<device_id>`: the storage after the call and
the JSON response. -/
structure ContactsOut where
  storage : Storage
  resp : ContactsResp

/-- `save_contacts(device_id)`: take `emails` (default `[]`), reject
non-list values with a 400, otherwise replace the device's entry wholesale
and persist; a failing write raises and is reported as a 500, leaving the
contacts file in the unspecified post-failure state (the open-for-write
already truncated it). -/
def save_contacts (st : Storage) (device_id : String) (data : Payload) :
    ContactsOut :=
  let emails := pgetD data "emails" (JVal.arr [])
  if !emails.isArr then
    { storage := st, resp := .badRequest "emails must be a list" }
  else
    let contacts := setKey (load_json st.contactsFile []) device_id emails
    if st.writeFails then
      { storage := { st with contactsFile := st.writeResidue },
        resp := .serverError .osError }
    else
      { storage := { st with contactsFile := .valid contacts }, resp := .ok emails }

/-- `GET /contacts/<device_id>`: the stored value, or `[]` when absent. -/
def get_contacts (st : Storage) (device_id : String) : JVal :=
  pgetD (load_json st.contactsFile []) device_id (JVal.arr [])

/-- The device key used by `/ingest` and `/notify`:
`str(data.get("device_id", "default"))`. -/
def deviceOf (data : Payload) : String :=
  pyStr (pgetD data "device_id" (JVal.str "default"))

/-- The snapshot object `/ingest` stores under the device key, field by
field as the source builds it; `now` is `int(time.time())`. -/
def mkSnapshot (data : Payload) (now : Int) : JVal :=
  let ts0 := pget data "timestamp"
  let ts := if truthy ts0 && ts0.isStr then ts0
            else pgetD data "timestamp" (JVal.num (now : ℚ))
  JVal.obj
    [ ("heart_rate", pget data "heart_rate"),
      ("acc", JVal.obj
        [ ("x", pget data "acc_x"),
          ("y", pget data "acc_y"),
          ("z", pget data "acc_z") ]),
      ("gps", JVal.obj
        [ ("lat", pget data "gps_lat"),
          ("lon", pget data "gps_lon") ]),
      ("timestamp", ts),
      ("stress_score", pget data "stress_score"),
      ("stress_level", pget data "stress_level"),
      ("spo2", pget data "spo2"),
      ("temperature", pget data "temperature"),
      ("movement", pget data "movement"),
      ("emotion", pget data "emotion"),
      ("is_emergency", pgetD data "is_emergency" (JVal.bool false)) ]

/-- Response of `POST /ingest`: the 200 body carries `ok=true`,
`alert_sent` and `hr_threshold`; an uncaught exception becomes a 500 with
`ok=false`. -/
inductive IngestResp where
  | ok (alert_sent : Bool) (hr_threshold : Int)
  | err (e : PyError)
deriving DecidableEq

/-- Result of `POST /ingest`: storage after the call, the response, and the
recipients value handed to `send_email_async` when an alert was dispatched. -/
structure IngestOut where
  storage : Storage
  resp : IngestResp
  dispatched : Option JVal

/-- The high-stress check of `/ingest`, after the snapshot was saved:
`if hr is not None and float(hr) >= HR_THRESHOLD`, then load the device's
contacts and dispatch when that list is truthy.  A `float` failure
propagates to the handler's `except` arm as a 500. -/
def threshold_check (st : Storage) (thr : Int) (device : String) (hr : JVal) :
    IngestResp × Option JVal :=
  if hr.isNull then (.ok false thr, none)
  else
    match pyFloat hr with
    | .error e => (.err e, none)
    | .ok f =>
      if pyGe f thr then
        let contacts := pgetD (load_json st.contactsFile []) device (JVal.arr [])
        if truthy contacts then (.ok true thr, some contacts)
        else (.ok false thr, none)
      else (.ok false thr, none)

/-- `POST /ingest`: build the snapshot, store it under the device key
(wholesale replace, persisted before any threshold work), then run the
high-stress check.  A failing write raises out of `save_json` as a 500,
leaving the latest file in the unspecified post-failure state (the
open-for-write already truncated it). -/
def ingest (st : Storage) (thr : Int) (data : Payload) (now : Int) : IngestOut :=
  let device := deviceOf data
  let latest := setKey (load_json st.latestFile []) device (mkSnapshot data now)
  if st.writeFails then
    { storage := { st with latestFile := st.writeResidue },
      resp := .err .osError, dispatched := none }
  else
    let st1 : Storage := { st with latestFile := .valid latest }
    let rd := threshold_check st1 thr device (pget data "heart_rate")
    { storage := st1, resp := rd.1, dispatched := rd.2 }

/-- Response of `POST /notify`. -/
inductive NotifyResp where
  | ok (message : String)
  | badRequest (error : String)
deriving DecidableEq

/-- Result of `POST /notify`: the response plus the
`(emails, subject, message)` triple handed to `send_email_async`, if any. -/
structure NotifyOut where
  resp : NotifyResp
  dispatched : Option (JVal × JVal × JVal)

/-- `POST /notify`: resolve recipients from the body, falling back to the
Contact Registry when `emails` is `None`; reject with a 400 when the
resolved value is falsy, otherwise dispatch and report success. -/
def notify (st : Storage) (data : Payload) : NotifyOut :=
  let device := deviceOf data
  let subject := pgetD data "subject" (JVal.str "Alert from device")
  let message := pgetD data "message" (JVal.str "")
  let emails0 := pget data "emails"
  let emails := if emails0.isNull then
                  pgetD (load_json st.contactsFile []) device (JVal.arr [])
                else emails0
  if !truthy emails then
    { resp := .badRequest "No recipient emails", dispatched := none }
  else
    { resp := .ok "Email sending initiated",
      dispatched := some (emails, subject, message) }

/-- `GET /live/<device_id>`: the stored snapshot, or `{}` when absent. -/
def live (st : Storage) (device_id : String) : JVal :=
  pgetD (load_json st.latestFile []) device_id (JVal.obj [])

/-! ## Helper lemmas -/

/-- Writing a key into a JSON object makes lookup of that key return the
written value. -/
theorem lookup_setKey_self (l : JObj) (k : String) (v : JVal) :
    lookup? (setKey l k v) k = some v := by
  induction l with
  | nil => simp [setKey, lookup?]
  | cons kv rest ih =>
    obtain ⟨k1, v1⟩ := kv
    by_cases h : k1 = k
    · simp [setKey, h, lookup?]
    · simp [setKey, h, lookup?, ih]

/-- A payload with no `device_id` key is filed under the literal device id
`"default"`. -/
theorem deviceOf_of_absent (p : Payload) (h : lookup? p "device_id" = none) :
    deviceOf p = "default" := by
  simp [deviceOf, pgetD, h, pyStr]

/-- When the write succeeds, `/ingest` replaces the device's entry of the
latest-reading store with the freshly built snapshot and touches nothing
else. -/
theorem ingest_storage_eq (st : Storage) (thr : Int) (data : Payload) (now : Int)
    (hw : st.writeFails = false) :
    (ingest st thr data now).storage
      = { st with latestFile := .valid (setKey (load_json st.latestFile [])
            (deviceOf data) (mkSnapshot data now)) } := by
  simp [ingest, hw]

/-- When the write succeeds, the `/ingest` response and dispatch effect are
those of the high-stress check run on the updated storage. -/
theorem ingest_resp_eq (st : Storage) (thr : Int) (data : Payload) (now : Int)
    (hw : st.writeFails = false) :
    (ingest st thr data now).resp
        = (threshold_check (ingest st thr data now).storage thr (deviceOf data)
            (pget data "heart_rate")).1 ∧
    (ingest st thr data now).dispatched
        = (threshold_check (ingest st thr data now).storage thr (deviceOf data)
            (pget data "heart_rate")).2 := by
  constructor <;> simp [ingest, hw]

/-! ## Claim C1 -/

/-- C1 counterexample: a payload whose `heart_rate` is present but not
parseable as a number (`"abc"`) makes `/ingest` return the 500-class
`ok=false` error produced by `float("abc")` raising `ValueError` — not the
claimed `ok=true, alert_sent=false` success. -/
theorem C1_counterexample :
    (ingest ⟨.valid [], .valid [], false, .absent⟩ 85 [("heart_rate", JVal.str "abc")] 0).resp
      = IngestResp.err PyError.valueError := by
  decide

/-- C1 (amended): if `heart_rate` is absent (equivalently, JSON `null` —
`data.get` cannot distinguish the two), `/ingest` returns `ok=true,
alert_sent=false` and makes no dispatch; but when `heart_rate` is present
and not parseable as a number, the `float` call raises and the endpoint
returns a 500-class `ok=false` error instead. -/
theorem C1_theorem (st : Storage) (thr : Int) (p : Payload) (now : Int)
    (hw : st.writeFails = false)
    (hhr : pget p "heart_rate" = JVal.null) :
    (ingest st thr p now).resp = IngestResp.ok false thr ∧
    (ingest st thr p now).dispatched = none := by
  obtain ⟨hr, hd⟩ := ingest_resp_eq st thr p now hw
  rw [hr, hd, hhr]
  simp [threshold_check, JVal.isNull]

/-- C1 witness: the empty payload against fresh storage. -/
theorem C1_witness :
    (ingest ⟨.valid [], .valid [], false, .absent⟩ 85 [] 0).resp = IngestResp.ok false 85 ∧
    (ingest ⟨.valid [], .valid [], false, .absent⟩ 85 [] 0).dispatched = none :=
  C1_theorem ⟨.valid [], .valid [], false, .absent⟩ 85 [] 0 rfl rfl

/-! ## Claim C2 -/

/-- C2: with a non-empty saved contact list for the device, `/ingest` with a
numeric `heart_rate` exactly equal to the configured threshold reports
`alert_sent=true` and dispatches to those contacts (inclusive boundary),
while `heart_rate = threshold - 1` reports `alert_sent=false` with no
dispatch. -/
theorem C2_theorem (st : Storage) (thr : Int) (dev : String) (cs : List JVal)
    (now : Int)
    (hw : st.writeFails = false)
    (hc : pgetD (load_json st.contactsFile []) dev (JVal.arr []) = JVal.arr cs)
    (hne : cs ≠ []) :
    ((ingest st thr [("device_id", JVal.str dev), ("heart_rate", JVal.num (thr : ℚ))] now).resp
        = IngestResp.ok true thr ∧
     (ingest st thr [("device_id", JVal.str dev), ("heart_rate", JVal.num (thr : ℚ))] now).dispatched
        = some (JVal.arr cs)) ∧
    ((ingest st thr [("device_id", JVal.str dev), ("heart_rate", JVal.num ((thr - 1 : Int) : ℚ))] now).resp
        = IngestResp.ok false thr ∧
     (ingest st thr [("device_id", JVal.str dev), ("heart_rate", JVal.num ((thr - 1 : Int) : ℚ))] now).dispatched
        = none) := by
  have hdev1 : deviceOf [("device_id", JVal.str dev), ("heart_rate", JVal.num (thr : ℚ))] = dev := by
    simp [deviceOf, pgetD, lookup?, pyStr]
  have hdev2 : deviceOf [("device_id", JVal.str dev), ("heart_rate", JVal.num ((thr - 1 : Int) : ℚ))] = dev := by
    simp [deviceOf, pgetD, lookup?, pyStr]
  have hhr1 : pget [("device_id", JVal.str dev), ("heart_rate", JVal.num (thr : ℚ))] "heart_rate"
      = JVal.num (thr : ℚ) := by
    simp [pget, lookup?]
  have hhr2 : pget [("device_id", JVal.str dev), ("heart_rate", JVal.num ((thr - 1 : Int) : ℚ))] "heart_rate"
      = JVal.num ((thr - 1 : Int) : ℚ) := by
    simp [pget, lookup?]
  have hcs : truthy (JVal.arr cs) = true := by
    cases cs with
    | nil => exact absurd rfl hne
    | cons a l => simp [truthy]
  constructor
  · obtain ⟨hr1, hd1⟩ := ingest_resp_eq st thr
      [("device_id", JVal.str dev), ("heart_rate", JVal.num (thr : ℚ))] now hw
    rw [hr1, hd1, ingest_storage_eq st thr _ now hw, hdev1, hhr1]
    simp [threshold_check, JVal.isNull, pyFloat, pyGe, hc, hcs]
  · obtain ⟨hr2, hd2⟩ := ingest_resp_eq st thr
      [("device_id", JVal.str dev), ("heart_rate", JVal.num ((thr - 1 : Int) : ℚ))] now hw
    have hlt : ¬ ((thr : ℚ) ≤ ((thr - 1 : Int) : ℚ)) := by
      push_cast
      linarith
    rw [hr2, hd2, ingest_storage_eq st thr _ now hw, hdev2, hhr2]
    simp [threshold_check, JVal.isNull, pyFloat, pyGe, hlt]
    norm_num

/-- C2 witness: threshold 85 with one saved contact — hr 85 alerts, hr 84
does not. -/
theorem C2_witness :
    ((ingest ⟨.valid [("d", JVal.arr [JVal.str "a@x.com"])], .valid [], false, .absent⟩ 85
        [("device_id", JVal.str "d"), ("heart_rate", JVal.num ((85 : Int) : ℚ))] 0).resp
        = IngestResp.ok true 85 ∧
     (ingest ⟨.valid [("d", JVal.arr [JVal.str "a@x.com"])], .valid [], false, .absent⟩ 85
        [("device_id", JVal.str "d"), ("heart_rate", JVal.num ((85 : Int) : ℚ))] 0).dispatched
        = some (JVal.arr [JVal.str "a@x.com"])) ∧
    ((ingest ⟨.valid [("d", JVal.arr [JVal.str "a@x.com"])], .valid [], false, .absent⟩ 85
        [("device_id", JVal.str "d"), ("heart_rate", JVal.num ((85 - 1 : Int) : ℚ))] 0).resp
        = IngestResp.ok false 85 ∧
     (ingest ⟨.valid [("d", JVal.arr [JVal.str "a@x.com"])], .valid [], false, .absent⟩ 85
        [("device_id", JVal.str "d"), ("heart_rate", JVal.num ((85 - 1 : Int) : ℚ))] 0).dispatched
        = none) :=
  C2_theorem ⟨.valid [("d", JVal.arr [JVal.str "a@x.com"])], .valid [], false, .absent⟩ 85 "d"
    [JVal.str "a@x.com"] 0 rfl rfl (by simp)

/-! ## Claim C3 -/

/-- C3 counterexample: with fresh (contact-free) storage, an over-threshold
ingest (hr 100 against threshold 85, so the alert condition holds and no
contacts exist for the device) and a below-threshold ingest (hr 50) return
the very same response — the "alert but no contacts" outcome is not
distinguishable from "no alert" in the response. -/
theorem C3_counterexample :
    (ingest ⟨.valid [], .valid [], false, .absent⟩ 85 [("heart_rate", JVal.num 100)] 0).resp
      = (ingest ⟨.valid [], .valid [], false, .absent⟩ 85 [("heart_rate", JVal.num 50)] 0).resp ∧
    (ingest ⟨.valid [], .valid [], false, .absent⟩ 85 [("heart_rate", JVal.num 100)] 0).dispatched = none ∧
    pyGe (PyFloat.finite 100) 85 = true ∧
    get_contacts ⟨.valid [], .valid [], false, .absent⟩ "default" = JVal.arr [] :=
  ⟨by decide, rfl, by decide, rfl⟩

/-- C3 (amended): when the heart rate parses and meets the threshold but
the Contact Registry holds no contacts for the device, `/ingest` reports
`alert_sent=false` and makes no delivery attempt; this outcome is however
identical in the response to the case where no alert was triggered at all
(both return `ok=true, alert_sent=false`). -/
theorem C3_theorem (st : Storage) (thr : Int) (p : Payload) (now : Int)
    (f : PyFloat)
    (hw : st.writeFails = false)
    (hpar : pyFloat (pget p "heart_rate") = .ok f)
    (hge : pyGe f thr = true)
    (hc : pgetD (load_json st.contactsFile []) (deviceOf p) (JVal.arr [])
          = JVal.arr []) :
    (ingest st thr p now).resp = IngestResp.ok false thr ∧
    (ingest st thr p now).dispatched = none := by
  obtain ⟨hr, hd⟩ := ingest_resp_eq st thr p now hw
  rw [hr, hd, ingest_storage_eq st thr p now hw]
  by_cases hn : (pget p "heart_rate").isNull = true
  · simp [threshold_check, hn]
  · have hn2 : (pget p "heart_rate").isNull = false := by
      simpa using hn
    simp [threshold_check, hn2, hpar, hge, hc, truthy]

/-- C3 witness: hr 100 against threshold 85 with no saved contacts. -/
theorem C3_witness :
    (ingest ⟨.valid [], .valid [], false, .absent⟩ 85 [("heart_rate", JVal.num 100)] 0).resp
        = IngestResp.ok false 85 ∧
    (ingest ⟨.valid [], .valid [], false, .absent⟩ 85 [("heart_rate", JVal.num 100)] 0).dispatched
        = none :=
  C3_theorem ⟨.valid [], .valid [], false, .absent⟩ 85 [("heart_rate", JVal.num 100)] 0
    (PyFloat.finite 100) rfl rfl (by decide) rfl

/-! ## Claim C4 -/

/-- C4: ingest is a wholesale replace with last-write-wins semantics —
after two snapshots for the same device are ingested in sequence,
`GET /live/D` returns exactly the snapshot built from the second payload,
with no field carried over from the first. -/
theorem C4_theorem (st : Storage) (thr : Int) (p1 p2 : Payload)
    (now1 now2 : Int) (D : String)
    (hw : st.writeFails = false)
    (h1 : deviceOf p1 = D) (h2 : deviceOf p2 = D) :
    live (ingest (ingest st thr p1 now1).storage thr p2 now2).storage D
      = mkSnapshot p2 now2 := by
  rw [ingest_storage_eq st thr p1 now1 hw]
  rw [ingest_storage_eq _ thr p2 now2 (by simpa using hw)]
  simp [live, load_json, pgetD, h2, lookup_setKey_self]

/-- C4 witness: two ingests for device `"d"`; the live view is the second
snapshot. -/
theorem C4_witness :
    live (ingest (ingest ⟨.valid [], .valid [], false, .absent⟩ 85
          [("device_id", JVal.str "d"), ("heart_rate", JVal.num 1)] 0).storage 85
          [("device_id", JVal.str "d"), ("spo2", JVal.num 9)] 1).storage "d"
      = mkSnapshot [("device_id", JVal.str "d"), ("spo2", JVal.num 9)] 1 :=
  C4_theorem ⟨.valid [], .valid [], false, .absent⟩ 85
    [("device_id", JVal.str "d"), ("heart_rate", JVal.num 1)]
    [("device_id", JVal.str "d"), ("spo2", JVal.num 9)] 0 1 "d" rfl rfl rfl

/-! ## Claim C7 -/

/-- C7: a `POST /contacts/<device_id>` whose `emails` value is not a list is
rejected with the 400-class message `"emails must be a list"`, and the
stored state is returned unchanged. -/
theorem C7_theorem (st : Storage) (dev : String) (p : Payload)
    (h : (pgetD p "emails" (JVal.arr [])).isArr = false) :
    (save_contacts st dev p).resp = ContactsResp.badRequest "emails must be a list" ∧
    (save_contacts st dev p).storage = st := by
  simp [save_contacts, h]

/-- C7 witness: `emails` bound to a string. -/
theorem C7_witness :
    (save_contacts ⟨.valid [], .valid [], false, .absent⟩ "d" [("emails", JVal.str "a@x.com")]).resp
        = ContactsResp.badRequest "emails must be a list" ∧
    (save_contacts ⟨.valid [], .valid [], false, .absent⟩ "d" [("emails", JVal.str "a@x.com")]).storage
        = ⟨.valid [], .valid [], false, .absent⟩ :=
  C7_theorem ⟨.valid [], .valid [], false, .absent⟩ "d" [("emails", JVal.str "a@x.com")] rfl

/-! ## Claim C8 -/

/-- C8: setting a device's contact list and reading it back returns exactly
the list that was posted (order and duplicates preserved, since the stored
value is the posted list itself), and a device with no stored entry reads
back as the empty list rather than an error. -/
theorem C8_theorem (st : Storage) (D : String) (L : List JVal)
    (hw : st.writeFails = false) :
    get_contacts (save_contacts st D [("emails", JVal.arr L)]).storage D
        = JVal.arr L ∧
    (lookup? (load_json st.contactsFile []) D = none →
      get_contacts st D = JVal.arr []) := by
  constructor
  · simp [save_contacts, pgetD, lookup?, JVal.isArr, hw, get_contacts, load_json,
      lookup_setKey_self]
  · intro h
    simp [get_contacts, pgetD, h]

/-- C8 witness: a singleton list round-trips through fresh storage, and the
fresh storage reads back empty. -/
theorem C8_witness :
    get_contacts (save_contacts ⟨.valid [], .valid [], false, .absent⟩ "D"
        [("emails", JVal.arr [JVal.str "a@x.com"])]).storage "D"
      = JVal.arr [JVal.str "a@x.com"] ∧
    (lookup? (load_json (Storage.mk (.valid []) (.valid []) false .absent).contactsFile []) "D" = none →
      get_contacts ⟨.valid [], .valid [], false, .absent⟩ "D" = JVal.arr []) :=
  C8_theorem ⟨.valid [], .valid [], false, .absent⟩ "D" [JVal.str "a@x.com"] rfl

/-! ## Claim C5 -/

/-- C5: `send_email_async` reports acceptance (`True`) for every
configuration, recipient list, subject and body — acceptance never reflects
delivery — and when the SMTP credentials are absent the spawned delivery
path degrades to the logged-only no-op outcome, regardless of how the
transport would have behaved. -/
theorem C5_theorem (cfg : SmtpConfig) (tos subject body : JVal) (t : Bool)
    (hc : credsPresent cfg = false) :
    (∀ (cfg2 : SmtpConfig) (tos2 s2 b2 : JVal),
        (send_email_async cfg2 tos2 s2 b2).accepted = true) ∧
    (send_email_async cfg tos subject body).delivery t
        = DeliveryOutcome.noCreds := by
  constructor
  · intro cfg2 tos2 s2 b2
    rfl
  · simp [send_email_async, sendThreadBody, hc]

/-- C5 witness: a configuration with no credentials. -/
theorem C5_witness :
    (∀ (cfg2 : SmtpConfig) (tos2 s2 b2 : JVal),
        (send_email_async cfg2 tos2 s2 b2).accepted = true) ∧
    (send_email_async ⟨none, none, 465⟩ JVal.null JVal.null JVal.null).delivery true
        = DeliveryOutcome.noCreds :=
  C5_theorem ⟨none, none, 465⟩ JVal.null JVal.null JVal.null true rfl

/-! ## Claim C6 -/

/-- C6 counterexample: a corrupt contacts file is read back as the default
empty document with no error — `GET /contacts` on it succeeds with `[]`
instead of any 5xx-class failure. -/
theorem C6_counterexample :
    load_json FileContent.corrupt [] = [] ∧
    get_contacts ⟨FileContent.corrupt, FileContent.absent, false, FileContent.absent⟩ "dev"
      = JVal.arr [] :=
  ⟨rfl, rfl⟩

/-- C6 (amended): a failing write is reported to the caller as a 5xx-class
`ok=false` result on both mutation paths, so no write is silently dropped;
the failed write leaves the targeted file in the unspecified post-failure
state (`open("w")` truncates before dumping), not necessarily the old
content.  A read of a corrupt persisted document, however, surfaces no
error at all: `load_json` swallows the decode failure and silently yields
the default (empty) document. -/
theorem C6_theorem (st : Storage) (dev : String) (p : Payload) (L : List JVal)
    (d : JObj) (thr now : Int)
    (hw : st.writeFails = true)
    (he : pgetD p "emails" (JVal.arr []) = JVal.arr L) :
    (save_contacts st dev p).resp = ContactsResp.serverError PyError.osError ∧
    (save_contacts st dev p).storage.contactsFile = st.writeResidue ∧
    (ingest st thr p now).resp = IngestResp.err PyError.osError ∧
    (ingest st thr p now).storage.latestFile = st.writeResidue ∧
    load_json FileContent.corrupt d = d := by
  refine ⟨?_, ?_, ?_, ?_, rfl⟩
  · simp [save_contacts, he, JVal.isArr, hw]
  · simp [save_contacts, he, JVal.isArr, hw]
  · simp [ingest, hw]
  · simp [ingest, hw]

/-- C6 witness: failing storage rejects both mutations as 500s, each
leaving the targeted file in the post-failure state, and a corrupt
document reads back as its default. -/
theorem C6_witness :
    (save_contacts ⟨.valid [], .valid [], true, .corrupt⟩ "d" [("emails", JVal.arr [])]).resp
        = ContactsResp.serverError PyError.osError ∧
    (save_contacts ⟨.valid [], .valid [], true, .corrupt⟩ "d" [("emails", JVal.arr [])]).storage.contactsFile
        = (Storage.mk (.valid []) (.valid []) true .corrupt).writeResidue ∧
    (ingest ⟨.valid [], .valid [], true, .corrupt⟩ 85 [("emails", JVal.arr [])] 0).resp
        = IngestResp.err PyError.osError ∧
    (ingest ⟨.valid [], .valid [], true, .corrupt⟩ 85 [("emails", JVal.arr [])] 0).storage.latestFile
        = (Storage.mk (.valid []) (.valid []) true .corrupt).writeResidue ∧
    load_json FileContent.corrupt [("k", JVal.null)] = [("k", JVal.null)] :=
  C6_theorem ⟨.valid [], .valid [], true, .corrupt⟩ "d" [("emails", JVal.arr [])] []
    [("k", JVal.null)] 85 0 rfl rfl

/-! ## Claim C9 -/

/-- C9: payloads that omit `device_id` are not rejected — they are filed
under the literal device id `"default"`: successive such ingests overwrite
one another under the single key `"default"`, and `/notify` without
`emails` resolves the contacts registered under `"default"` (dispatching
exactly when that list is truthy). -/
theorem C9_theorem (st : Storage) (thr : Int) (p1 p2 q : Payload)
    (now1 now2 : Int)
    (hw : st.writeFails = false)
    (h1 : lookup? p1 "device_id" = none)
    (h2 : lookup? p2 "device_id" = none)
    (hq : lookup? q "device_id" = none)
    (hqe : pget q "emails" = JVal.null) :
    live (ingest (ingest st thr p1 now1).storage thr p2 now2).storage "default"
      = mkSnapshot p2 now2 ∧
    (notify st q).dispatched
      = (if truthy (get_contacts st "default") then
          some (get_contacts st "default",
                pgetD q "subject" (JVal.str "Alert from device"),
                pgetD q "message" (JVal.str ""))
         else none) := by
  constructor
  · rw [ingest_storage_eq st thr p1 now1 hw,
      ingest_storage_eq _ thr p2 now2 (by simpa using hw)]
    simp [live, load_json, pgetD, deviceOf_of_absent p2 h2, lookup_setKey_self]
  · have hdev := deviceOf_of_absent q hq
    by_cases ht : truthy (pgetD (load_json st.contactsFile []) "default" (JVal.arr [])) = true
    · simp [notify, hqe, JVal.isNull, hdev, get_contacts, ht]
    · have ht2 : truthy (pgetD (load_json st.contactsFile []) "default" (JVal.arr [])) = false := by
        simpa using ht
      simp [notify, hqe, JVal.isNull, hdev, get_contacts, ht2]

/-- C9 witness: two `device_id`-less ingests collapse onto `"default"`, and
a `device_id`-less notify resolves the contacts saved under `"default"`. -/
theorem C9_witness :
    live (ingest (ingest ⟨.valid [("default", JVal.arr [JVal.str "a@x.com"])], .valid [], false, .absent⟩ 85
          [("heart_rate", JVal.num 1)] 0).storage 85
          [("spo2", JVal.num 2)] 1).storage "default"
      = mkSnapshot [("spo2", JVal.num 2)] 1 ∧
    (notify ⟨.valid [("default", JVal.arr [JVal.str "a@x.com"])], .valid [], false, .absent⟩
        [("subject", JVal.str "s")]).dispatched
      = (if truthy (get_contacts ⟨.valid [("default", JVal.arr [JVal.str "a@x.com"])], .valid [], false, .absent⟩ "default") then
          some (get_contacts ⟨.valid [("default", JVal.arr [JVal.str "a@x.com"])], .valid [], false, .absent⟩ "default",
                pgetD [("subject", JVal.str "s")] "subject" (JVal.str "Alert from device"),
                pgetD [("subject", JVal.str "s")] "message" (JVal.str ""))
         else none) :=
  C9_theorem ⟨.valid [("default", JVal.arr [JVal.str "a@x.com"])], .valid [], false, .absent⟩ 85
    [("heart_rate", JVal.num 1)] [("spo2", JVal.num 2)] [("subject", JVal.str "s")]
    0 1 rfl rfl rfl rfl rfl

/-! ## Claim C10 -/

/-- C10: `/ingest` persists the snapshot before evaluating the threshold,
so a payload whose `heart_rate` is present (non-null) but not parseable as
a number gets a 500-class `ok=false` error while the new snapshot has
already replaced the stored one. -/
theorem C10_theorem (st : Storage) (thr : Int) (p : Payload) (now : Int)
    (e : PyError)
    (hw : st.writeFails = false)
    (hnn : (pget p "heart_rate").isNull = false)
    (hpar : pyFloat (pget p "heart_rate") = .error e) :
    (ingest st thr p now).resp = IngestResp.err e ∧
    live (ingest st thr p now).storage (deviceOf p) = mkSnapshot p now := by
  constructor
  · obtain ⟨hr, _⟩ := ingest_resp_eq st thr p now hw
    rw [hr]
    simp [threshold_check, hnn, hpar]
  · rw [ingest_storage_eq st thr p now hw]
    simp [live, load_json, pgetD, lookup_setKey_self]

/-- C10 witness: `heart_rate: "abc"` against fresh storage errors with
`ValueError` while the snapshot is stored under `"default"`. -/
theorem C10_witness :
    (ingest ⟨.valid [], .valid [], false, .absent⟩ 85 [("heart_rate", JVal.str "abc")] 0).resp
        = IngestResp.err PyError.valueError ∧
    live (ingest ⟨.valid [], .valid [], false, .absent⟩ 85 [("heart_rate", JVal.str "abc")] 0).storage
        (deviceOf [("heart_rate", JVal.str "abc")])
      = mkSnapshot [("heart_rate", JVal.str "abc")] 0 :=
  C10_theorem ⟨.valid [], .valid [], false, .absent⟩ 85 [("heart_rate", JVal.str "abc")] 0
    PyError.valueError rfl rfl rfl

end StressBackend
